import Mathlib

/-!
Shallow embedding of `src/app/ummvar_gen.py`: the attribute-to-schema
mapping engine that turns netCDF variable metadata into UMM-Var records.
Python attribute values are modelled by `PyVal` (floats as rationals,
with NaN as its own constructor because the code only ever tests
`str(value) == "nan"`), attribute mappings as ordered association
lists, and rules that can raise as `Except Unit`.
-/

set_option maxHeartbeats 1000000

namespace UmmVarGen

/-- Python `str.lower()` on one character (ASCII range, which covers
every string the rules lower-case). -/
def pyCharLower (c : Char) : Char :=
  if 'A' ≤ c ∧ c ≤ 'Z' then Char.ofNat (c.toNat + 32) else c

/-- Python `str.lower()`. -/
def pyLower (s : String) : String := String.mk (s.data.map pyCharLower)

/-- Python `str.replace(a, b)` at the single-character call site
`.replace(" ", "_")`: substitute every occurrence of the character. -/
def pyReplaceChar (s : String) (a b : Char) : String :=
  String.mk (s.data.map (fun c => if c = a then b else c))

/-- Python `str.startswith(pre)`. -/
def pyStartsWith (s pre : String) : Bool := pre.data.isPrefixOf s.data

/-- Whitespace as Python `str.strip()` sees it. -/
def pyIsSpace (c : Char) : Bool :=
  c = ' ' || c = '\t' || c = '\n' || c = '\r' || c = '\x0b' || c = '\x0c'

/-- Python `str.strip()`: drop leading and trailing whitespace. -/
def pyStrip (s : String) : String :=
  String.mk (((s.data.dropWhile pyIsSpace).reverse.dropWhile pyIsSpace).reverse)

/-- Python slicing `s[n:]`. -/
def pyDrop (s : String) (n : ℕ) : String := String.mk (s.data.drop n)

/-- Model of the Python values carried by netCDF attributes and produced
by the field rules. `pnone` is Python None; numbers are rationals;
`nan` is the float NaN; `bytes` a raw byte sequence; `arr` a
list/ndarray; `dict` a string-keyed mapping. -/
inductive PyVal where
  | pnone
  | str (s : String)
  | num (q : ℚ)
  | nan
  | bytes (b : List Nat)
  | arr (elems : List PyVal)
  | dict (fields : List (String × PyVal))

/-- Python truthiness, as used by `if value:` in `Record.fill`: None,
zero, and empty string/bytes/list/dict are falsy; NaN is truthy. -/
def truthy : PyVal → Bool
  | .pnone => false
  | .str s => !s.data.isEmpty
  | .num q => decide (q ≠ 0)
  | .nan => true
  | .bytes b => !b.isEmpty
  | .arr l => !l.isEmpty
  | .dict d => !d.isEmpty

/-- Decimal digits of a natural number, with explicit fuel so the
recursion is structural. -/
def natToDigitsAux : ℕ → ℕ → List Char
  | 0, _ => []
  | fuel + 1, n =>
    if n = 0 then [] else natToDigitsAux fuel (n / 10) ++ [Char.ofNat (48 + n % 10)]

/-- Decimal rendering of a natural number. -/
def natToStr (n : ℕ) : String :=
  if n = 0 then "0" else String.mk (natToDigitsAux n n)

/-- Rendering of a numeric attribute value as sign, numerator and
denominator digits. The rules only ever compare this rendering against
"nan" (`_FillValues`) or look it up in a table whose keys are all
non-numeric words (`_VariableType`), so the only facts that matter are
that it is never "nan" and never a table key, which any
digits-and-sign rendering satisfies. -/
def ratToStr (q : ℚ) : String :=
  (if q < 0 then "-" else "") ++ natToStr q.num.natAbs ++ "/" ++ natToStr q.den

/-- Textual rendering `str(value)`, to the extent the rules rely on it:
the rules only compare the rendering of scalars (against "nan") or use
the rendering of the string/NaN cases; aggregates get a fixed
placeholder rendering that no rule inspects. -/
def pyStr : PyVal → String
  | .pnone => "None"
  | .str s => s
  | .num q => ratToStr q
  | .nan => "nan"
  | .bytes _ => "bytesvalue"
  | .arr _ => "arrayvalue"
  | .dict _ => "dictvalue"

/-- True exactly on the byte-sequence case (`type(value) == bytes`). -/
def isBytes : PyVal → Bool
  | .bytes _ => true
  | _ => false

/-- True exactly on Python None (absent rule result). -/
def PyVal.isNone : PyVal → Bool
  | .pnone => true
  | _ => false

/-- A group node as the rules see it: its slash-delimited path and its
own attributes. -/
structure GroupNode where
  path : String
  attrs : List (String × PyVal)

/-- The element type of a variable. `plain code` models a numpy dtype
that exposes `.str`, with `code = dtype.str[1:]` (for example "f4");
`wrapper d` models a netCDF4 wrapper type without `.str`, whose
`str()` rendering is `d`. -/
inductive ElementType where
  | plain (code : String)
  | wrapper (descr : String)

/-- A netCDF variable together with the group context the rules read:
`group` is the owning group (`ncvar.group()`), `groupParent` that
group's parent when one exists (`ncvar.group().parent`). -/
structure NcVar where
  name : String
  group : GroupNode
  groupParent : Option GroupNode
  attrs : List (String × PyVal)
  datatype : ElementType

/-- The closed `__datatypes__` table, in source order (insertion order
matters for the prefix-matching fallback loop). -/
def __datatypes__ : List (String × String) := [
  ("S1", "NC_STRING"),
  ("i1", "NC_BYTE"),
  ("u1", "NC_UBYTE"),
  ("i2", "NC_SHORT"),
  ("u2", "NC_USHORT"),
  ("i4", "NC_INT"),
  ("u4", "NC_UINT"),
  ("i8", "NC_INT64"),
  ("u8", "NC_UINT64"),
  ("f4", "NC_FLOAT"),
  ("f8", "NC_DOUBLE"),
  ("<class \x27netCDF4._netCDF4.VLType\x27>: string type", "NC_STRING"),
  ("<class \x27netCDF4._netCDF4.CompoundType\x27>:", "NC_UBYTE")]

/-- `Variable._DataType`. A dtype exposing a plain binary code is
looked up in `__datatypes__`; a missing code re-raises the KeyError,
modelled as `.error ()`. A wrapper type falls back to matching its
textual rendering against the table keys by prefix, in table order;
when no key matches, the Python `for` loop is exhausted and the
function implicitly returns None, modelled as `.ok none`. A mapped
value has its leading "NC_" stripped and is lowercased. -/
def _DataType : ElementType → Except Unit (Option String)
  | .plain code =>
    match __datatypes__.lookup code with
    | some tc => .ok (some (pyLower (pyDrop tc 3)))
    | none => .error ()
  | .wrapper descr =>
    match __datatypes__.find? (fun kv => pyStartsWith descr kv.1) with
    | some kv => .ok (some (pyLower (pyDrop kv.2 3)))
    | none => .ok none

/-- `Variable._Name`: spaces in the owning group's path become
underscores; a variable of the root group gets its bare local name,
any other variable gets path ++ "/" ++ name. -/
def _Name (v : NcVar) : String :=
  let p := pyReplaceChar v.group.path ' ' '_'
  if p = "/" then v.name else p ++ "/" ++ v.name

/-- `Variable._Scale`: the `scale_factor` attribute when present, else
the default 1.0. -/
def _Scale (v : NcVar) : PyVal :=
  match v.attrs.lookup "scale_factor" with
  | some value => value
  | none => .num 1

/-- `Variable._Offset`: the `add_offset` attribute when present, else
the default 0.0. -/
def _Offset (v : NcVar) : PyVal :=
  match v.attrs.lookup "add_offset" with
  | some value => value
  | none => .num 0

/-- The `for attribute in ["_FillValue", "missing_value"]` loop of
`Variable._FillValues`: a missing attribute, a value rendering as
"nan", or a bytes value each make the loop continue with the next
attribute name (the Python body is `pass`); a present valid value
returns the one-element fill list. -/
def fillValuesLoop (v : NcVar) : List String → PyVal
  | [] => .pnone
  | a :: rest =>
    match v.attrs.lookup a with
    | none => fillValuesLoop v rest
    | some value =>
      if pyStr value = "nan" then fillValuesLoop v rest
      else if isBytes value then fillValuesLoop v rest
      else .arr [.dict [("Value", value), ("Type", .str "SCIENCE_FILLVALUE")]]

/-- `Variable._FillValues`: None for a variable named "time"
(case-insensitively); otherwise the attribute loop. -/
def _FillValues (v : NcVar) : PyVal :=
  if pyLower v.name = "time" then .pnone
  else fillValuesLoop v ["_FillValue", "missing_value"]

/-- The closed coverage-content-type table of `Variable._VariableType`,
in source order, including the known misspellings. -/
def coverage_content_types : List (String × String) := [
  ("image", "SCIENCE_VARIABLE"),
  ("thematicClassification", "SCIENCE_VARIABLE"),
  ("physicalMeasurement", "SCIENCE_VARIABLE"),
  ("modelResult", "SCIENCE_VARIABLE"),
  ("auxiliaryInformation", "ANCILLARY_VARIABLE"),
  ("auxillaryInformation", "ANCILLARY_VARIABLE"),
  ("auxilliaryData", "ANCILLARY_VARIABLE"),
  ("qualityInformation", "QUALITY_VARIABLE"),
  ("qualityInformaion", "QUALITY_VARIABLE"),
  ("reference_information", "OTHER"),
  ("referenceInformation", "OTHER"),
  ("coordinate", "COORDINATE")]

/-- `Variable._VariableType`: None when the `coverage_content_type`
attribute is absent; otherwise the trimmed rendering of its value is
looked up in the closed table, and a missing key raises KeyError
(modelled `.error ()`), which the function does not catch. -/
def _VariableType (v : NcVar) : Except Unit PyVal :=
  match v.attrs.lookup "coverage_content_type" with
  | none => .ok .pnone
  | some value =>
    match coverage_content_types.lookup (pyStrip (pyStr value)) with
    | some r => .ok (.str r)
    | none => .error ()

/-- `any([a.startswith("flag") for a in ncvar.ncattrs()])`. -/
def hasFlagAttr (v : NcVar) : Bool :=
  v.attrs.any (fun kv => pyStartsWith kv.1 "flag")

/-- `Variable._VariableSubType`: SCIENCE_EVENTFLAG when some attribute
name starts with "flag"; otherwise the result of `_DataType` is
compared against the literal "char" (an exception from `_DataType`
propagates), OTHER on a match and None otherwise. -/
def _VariableSubType (v : NcVar) : Except Unit PyVal :=
  if hasFlagAttr v then .ok (.str "SCIENCE_EVENTFLAG")
  else
    match _DataType v.datatype with
    | .error e => .error e
    | .ok dt => if dt = some "char" then .ok (.str "OTHER") else .ok .pnone

/-- Character class of the `_num_sanitize` regex: digits, dot, minus. -/
def allowedNumChar (c : Char) : Bool := c.isDigit || c = '.' || c = '-'

/-- `_num_sanitize.sub('', s)`: delete every character that is not a
digit, a dot or a minus sign. -/
def _num_sanitize_sub (s : String) : String :=
  String.mk (s.data.filter allowedNumChar)

/-- Digit run folded to a natural number (the characters are known to
be decimal digits when this is used). -/
def natOfDigits (cs : List Char) : ℕ :=
  cs.foldl (fun n c => 10 * n + (c.toNat - 48)) 0

/-- Unsigned part of the `float()` model: an integer part, optionally a
dot and a fractional part; anything else (second dot, stray character,
empty string) is rejected. -/
def parseUnsignedFloat (cs : List Char) : Option ℚ :=
  let ip := cs.takeWhile (fun c => c ≠ '.')
  match cs.dropWhile (fun c => c ≠ '.') with
  | [] => if !ip.isEmpty && ip.all Char.isDigit then some (natOfDigits ip : ℚ) else none
  | _ :: fp =>
    if fp.contains '.' then none
    else if ip.isEmpty && fp.isEmpty then none
    else if ip.all Char.isDigit && fp.all Char.isDigit
    then some ((natOfDigits ip : ℚ) + (natOfDigits fp : ℚ) / (10 : ℚ) ^ fp.length)
    else none

/-- Model of Python `float()` on the plain decimal strings the
geospatial-bound path produces: an optional leading minus then the
unsigned form. A string `float()` would reject is `none`. -/
def pyFloat (s : String) : Option ℚ :=
  match s.data with
  | [] => none
  | c :: rest =>
    if c = '-' then (parseUnsignedFloat rest).map (fun q => -q)
    else parseUnsignedFloat (c :: rest)

/-- One bound of `_IndexRanges`: a textual bound is sanitized and
converted with `float()` (a conversion failure is an uncaught
ValueError, modelled `.error ()`); any other value passes through. -/
def _sanitize_bound : PyVal → Except Unit PyVal
  | .str s =>
    match pyFloat (_num_sanitize_sub s) with
    | some q => .ok (.num q)
    | none => .error ()
  | r => .ok r

/-- `Variable._IndexRanges`: use the parent of the owning group when it
exists, else the owning group itself; require the four geospatial
bound attributes there (an AttributeError is caught and yields None);
sanitize each bound and assemble the LatRange/LonRange mapping. -/
def _IndexRanges (v : NcVar) : Except Unit PyVal :=
  let grp := match v.groupParent with
    | some p => p
    | none => v.group
  match grp.attrs.lookup "geospatial_lat_min", grp.attrs.lookup "geospatial_lat_max",
        grp.attrs.lookup "geospatial_lon_min", grp.attrs.lookup "geospatial_lon_max" with
  | some latmin, some latmax, some lonmin, some lonmax => do
    let a ← _sanitize_bound latmin
    let b ← _sanitize_bound latmax
    let c ← _sanitize_bound lonmin
    let d ← _sanitize_bound lonmax
    .ok (.dict [("LatRange", .arr [a, b]), ("LonRange", .arr [c, d])])
  | _, _, _, _ => .ok .pnone

/-- `Record.fill`: `rule` is the result of the dispatch
`getattr(self.profile, ...)` on the property name — `none` when the
profile has no rule for the property, in which case the record is
unchanged. A truthy rule result is appended to the record under
`prop`; None and every other falsy value leaves the record unchanged. -/
def Record.fill (meta : List (String × PyVal)) (rule : Option (NcVar → PyVal))
    (v : NcVar) (prop : String) : List (String × PyVal) :=
  match rule with
  | none => meta
  | some f =>
    let value := f v
    if truthy value then meta ++ [(prop, value)] else meta

/-- A value stored in the `cf_standard_names` dictionary built by
`_read_cfnames`: either a nested dictionary (`dict()` is assigned for
each entry id) or a string (`str(t.text)` is assigned for each child
tag). -/
inductive CFVal where
  | dictv (d : List (String × String))
  | strv (s : String)

/-- Assignment into a Python dict, modelled on an ordered association
list: overwriting an existing key keeps its position, a new key is
appended. -/
def dictSet (tbl : List (String × CFVal)) (k : String) (val : CFVal) :
    List (String × CFVal) :=
  if (tbl.lookup k).isSome
  then tbl.map (fun kv => if kv.1 = k then (k, val) else kv)
  else tbl ++ [(k, val)]

/-- One `entry` element of the CF standard-name table: its id attribute
(`n.items()[0][1]`) and its direct children as (tag, text) pairs, where
text may be null. -/
structure XmlEntry where
  id : String
  children : List (String × Option String)

/-- `str(t.text)`: a null text renders as the string "None". -/
def pyStrOfText : Option String → String
  | some s => s
  | none => "None"

/-- `_read_cfnames`: for each entry, assign an empty dict under the
entry id, then assign `str(t.text)` under each child's tag — at the
top level of the table, exactly as the source does (the child loop
writes `cf_standard_names[t.tag]`, not into the entry's dict). -/
def _read_cfnames (entries : List XmlEntry) : List (String × CFVal) :=
  entries.foldl
    (fun tbl n =>
      n.children.foldl
        (fun tbl t => dictSet tbl t.1 (.strv (pyStrOfText t.2)))
        (dictSet tbl n.id (.dictv [])))
    []

/-- Specification-level reading of the same catalog, named after the
spec's VocabularyTable: a mapping from each entry's standard-name term
to that entry's description text. Used to state what the catalog
actually contains when comparing against `_read_cfnames`. -/
def read_cfnames_spec (entries : List XmlEntry) (term : String) : Option String :=
  (entries.find? (fun n => n.id = term)).bind
    (fun n => (n.children.find? (fun t => t.1 = "description")).bind (fun t => t.2))

/-- `_txt_sanitize`: arrays and lists are space-joined element
renderings, anything else is `str(d)`. -/
def _txt_sanitize (d : PyVal) : String :=
  match d with
  | .arr l => String.intercalate " " (l.map pyStr)
  | x => pyStr x

/-- One flag entry of `_AdditionalIdentifiers`. -/
def flagEntry (ident : String) (value : PyVal) : PyVal :=
  .dict [("Identifier", .str ident), ("Description", .str (_txt_sanitize value))]

/-- Final `return None if len(ai)==0 else ai` of
`_AdditionalIdentifiers`. -/
def aiFinish (ai : List PyVal) : Except Unit PyVal :=
  .ok (if ai.isEmpty then .pnone else .arr ai)

/-- `Variable._AdditionalIdentifiers`, parameterised by the
`Variable.cfnames` table. Flag attributes append their entries in
order; then, when `standard_name` is present, the code evaluates
`cfnames[standard_name]["description"]`: a missing key at either level
raises KeyError, which the surrounding `except` catches (no entry is
appended); indexing a string value found at the top level with a
string key would raise an uncaught TypeError (`.error ()`); a found
description (always a string in the built table, hence never None) is
appended as a CF_Standard_Description entry. -/
def _AdditionalIdentifiers (cfnames : List (String × CFVal)) (v : NcVar) :
    Except Unit PyVal :=
  let ai : List PyVal := []
  let ai := match v.attrs.lookup "flag_values" with
    | some fv => ai ++ [flagEntry "CF_Flag_Values" fv]
    | none => ai
  let ai := match v.attrs.lookup "flag_meanings" with
    | some fv => ai ++ [flagEntry "CF_Flag_Meanings" fv]
    | none => ai
  let ai := match v.attrs.lookup "flag_masks" with
    | some fv => ai ++ [flagEntry "CF_Flag_Masks" fv]
    | none => ai
  match v.attrs.lookup "standard_name" with
  | none => aiFinish ai
  | some sn =>
    match cfnames.lookup (pyStr sn) with
    | none => aiFinish ai
    | some (.strv _) => .error ()
    | some (.dictv d) =>
      match d.lookup "description" with
      | none => aiFinish ai
      | some desc =>
        aiFinish (ai ++ [.dict [("Identifier", .str "CF_Standard_Description"),
                                ("Description", .str desc)]])

/-- The group tree walked by `process_granule`: a group holds its
variables and its child groups, both in source-presented order.
Records are emitted per variable in walk order, so the walker is
modelled as producing the ordered variable sequence. -/
inductive NcGroup where
  | mk (vars : List String) (groups : List NcGroup)

mutual
/-- The inner `_ncgrp` of `process_granule`: first recurse into every
child group in order, threading the accumulated record list, then
append the group's own variables. -/
def _ncgrp : NcGroup → List String → List String
  | .mk vars groups, records => _ncgrpList groups records ++ vars

/-- The `for group in list(groups)` loop of `_ncgrp`. -/
def _ncgrpList : List NcGroup → List String → List String
  | [], records => records
  | g :: gs, records => _ncgrpList gs (_ncgrp g records)
end

/-- The root group, path "/". -/
def rootGroup : GroupNode := { path := "/", attrs := [] }

/-- Membership consequence of a successful association-list lookup. -/
theorem lookup_mem {β : Type} {l : List (String × β)} {k : String} {b : β}
    (h : l.lookup k = some b) : (k, b) ∈ l := by
  rcases List.lookup_eq_some_iff.mp h with ⟨l₁, l₂, rfl, -⟩
  simp

/-- No value of the `__datatypes__` table maps, after stripping "NC_"
and lowercasing, to "char" (the table targets schema 1.8.1, where `S1`
maps to "string"), so a successful `_DataType` never yields "char". -/
theorem datatype_never_char {et : ElementType} {r : Option String}
    (h : _DataType et = .ok r) : r ≠ some "char" := by
  have hall : ∀ kv ∈ __datatypes__, pyLower (pyDrop kv.2 3) ≠ "char" := by decide
  cases et with
  | plain code =>
    simp only [_DataType] at h
    cases hl : __datatypes__.lookup code with
    | none => rw [hl] at h; exact absurd h (by simp)
    | some tc =>
      rw [hl] at h
      have hr : r = some (pyLower (pyDrop tc 3)) := by
        injection h with h; exact h.symm
      subst hr
      intro hc
      injection hc with hc
      exact hall (code, tc) (lookup_mem hl) hc
  | wrapper descr =>
    simp only [_DataType] at h
    cases hf : __datatypes__.find? (fun kv => pyStartsWith descr kv.1) with
    | none => rw [hf] at h; injection h with h; subst h; simp
    | some kv =>
      rw [hf] at h
      have hr : r = some (pyLower (pyDrop kv.2 3)) := by
        injection h with h; exact h.symm
      subst hr
      intro hc
      injection hc with hc
      exact hall kv (List.mem_of_find?_eq_some hf) hc

/-- C1 counterexample: a wrapper element type whose textual rendering
matches no table key by prefix makes `_DataType` return None (absent)
silently instead of raising a hard error, refuting the claim that an
unmatched lookup always fails. -/
theorem C1_unmapped_wrapper_silent_cex :
    (__datatypes__.all (fun kv => !(pyStartsWith "mystery wrapper type" kv.1))) = true ∧
    _DataType (.wrapper "mystery wrapper type") = .ok none ∧
    _DataType (.wrapper "mystery wrapper type") ≠ .error () :=
  ⟨rfl, rfl, fun h => Except.noConfusion h⟩

/-- C1 (amended): on the plain-binary-code path an unmapped code is a
hard error (the KeyError is re-raised); on the wrapper fallback path a
textual description matching no table key by prefix makes `_DataType`
return None silently rather than raise. -/
theorem C1_datatype_lookup_failure :
    (∀ code : String, __datatypes__.lookup code = none →
      _DataType (.plain code) = .error ()) ∧
    (∀ descr : String,
      __datatypes__.find? (fun kv => pyStartsWith descr kv.1) = none →
      _DataType (.wrapper descr) = .ok none) := by
  constructor
  · intro code h; simp [_DataType, h]
  · intro descr h; simp [_DataType, h]

/-- C1 witness: an unmapped plain code raises, an unmatched wrapper
rendering yields None. -/
theorem C1_datatype_lookup_failure_witness :
    _DataType (.plain "q9") = .error () ∧
    _DataType (.wrapper "unmatched wrapper") = .ok none :=
  ⟨C1_datatype_lookup_failure.1 "q9" rfl,
   C1_datatype_lookup_failure.2 "unmatched wrapper" rfl⟩

/-- A variable named "sst" whose `_FillValue` is NaN while a valid
`missing_value` of -9999 is present. -/
def sstNanFill : NcVar :=
  { name := "sst", group := rootGroup, groupParent := none,
    attrs := [("_FillValue", .nan), ("missing_value", .num (-9999))],
    datatype := .plain "f4" }

/-- C2 counterexample: with `_FillValue` NaN and `missing_value` -9999
present, `_FillValues` produces the fill entry built from
`missing_value`, not absent: the loop body for an invalid value is
`pass`, which continues with the next attribute name. -/
theorem C2_fillvalues_cex :
    _FillValues sstNanFill =
      .arr [.dict [("Value", .num (-9999)), ("Type", .str "SCIENCE_FILLVALUE")]] ∧
    (_FillValues sstNanFill).isNone = false :=
  ⟨rfl, rfl⟩

/-- C2 (amended): the fill-value rule falls through: for a variable not
named "time", when `_FillValue` is present but NaN or bytes and
`missing_value` is present and valid, the rule produces the fill entry
built from `missing_value` rather than absent. -/
theorem C2_fillvalues_falls_through (v : NcVar) (fv mv : PyVal)
    (hname : pyLower v.name ≠ "time")
    (h1 : v.attrs.lookup "_FillValue" = some fv)
    (hbad : pyStr fv = "nan" ∨ isBytes fv = true)
    (h2 : v.attrs.lookup "missing_value" = some mv)
    (hmv1 : pyStr mv ≠ "nan") (hmv2 : isBytes mv = false) :
    _FillValues v =
      .arr [.dict [("Value", mv), ("Type", .str "SCIENCE_FILLVALUE")]] := by
  by_cases hn : pyStr fv = "nan"
  · simp [_FillValues, if_neg hname, fillValuesLoop, h1, h2, hn, hmv1, hmv2]
  · have hb : isBytes fv = true := hbad.resolve_left hn
    simp [_FillValues, if_neg hname, fillValuesLoop, h1, h2, hn, hb, hmv1, hmv2]

/-- C2 witness: the amended fall-through behaviour at the concrete
variable. -/
theorem C2_fillvalues_falls_through_witness :
    _FillValues sstNanFill =
      .arr [.dict [("Value", .num (-9999)), ("Type", .str "SCIENCE_FILLVALUE")]] :=
  C2_fillvalues_falls_through sstNanFill .nan (.num (-9999))
    (by decide) rfl (Or.inl rfl) rfl (by decide) rfl

/-- A variable named "sst" owned by the group with path "/a b". -/
def spacedGroupVar : NcVar :=
  { name := "sst", group := { path := "/a b", attrs := [] }, groupParent := none,
    attrs := [], datatype := .plain "f4" }

/-- A variable named "wind_speed" at the root group. -/
def rootVar : NcVar :=
  { name := "wind_speed", group := rootGroup, groupParent := none,
    attrs := [], datatype := .plain "f4" }

/-- C3 counterexample: a variable in group path "/a b" gets Name
"/a_b/sst" — the leading slash of the group path is kept, refuting the
claimed "a_b/<name>". -/
theorem C3_name_cex :
    _Name spacedGroupVar = "/a_b/sst" ∧ _Name spacedGroupVar ≠ "a_b/sst" :=
  ⟨rfl, by decide⟩

/-- Only the root path maps to "/" under the space-to-underscore
substitution: every character other than a space is kept, and a space
becomes an underscore, never a slash. -/
theorem pyReplaceChar_root : ∀ s : String,
    pyReplaceChar s ' ' '_' = "/" → s = "/" := by
  intro s h
  obtain ⟨data⟩ := s
  have hd : data.map (fun c => if c = ' ' then '_' else c) = ['/'] :=
    congrArg String.data h
  cases data with
  | nil => cases hd
  | cons c t =>
    rw [List.map_cons] at hd
    injection hd with h1 h2
    have ht : t = [] := List.map_eq_nil_iff.mp h2
    have hc : c = '/' := by
      by_cases hsp : c = ' '
      · rw [hsp, if_pos rfl] at h1
        exact absurd h1 (by decide)
      · rwa [if_neg hsp] at h1
    subst ht; subst hc
    rfl

/-- C3 (amended): root-group variables get the bare local name with no
separator; every other variable gets the space-underscored group path —
which keeps its leading slash — then "/" and the local name; in
particular group path "/a b" yields "/a_b/<name>". -/
theorem C3_name_rule :
    (∀ v : NcVar, v.group.path = "/" → _Name v = v.name) ∧
    (∀ v : NcVar, v.group.path ≠ "/" →
      _Name v = pyReplaceChar v.group.path ' ' '_' ++ "/" ++ v.name) ∧
    (∀ v : NcVar, v.group.path = "/a b" → _Name v = "/a_b/" ++ v.name) := by
  refine ⟨?_, ?_, ?_⟩
  · intro v h
    have hp : pyReplaceChar v.group.path ' ' '_' = "/" := by rw [h]; rfl
    simp [_Name, hp]
  · intro v h
    have hp : pyReplaceChar v.group.path ' ' '_' ≠ "/" :=
      fun hroot => h (pyReplaceChar_root _ hroot)
    simp only [_Name]
    rw [if_neg hp]
  · intro v h
    have hp : pyReplaceChar v.group.path ' ' '_' = "/a_b" := by rw [h]; rfl
    simp only [_Name, hp]
    rw [if_neg (by decide)]
    rfl

/-- C3 witness: the rule at a root variable and, twice, at the "/a b"
group variable (general non-root clause and concrete instance). -/
theorem C3_name_rule_witness :
    _Name rootVar = "wind_speed" ∧
    _Name spacedGroupVar = pyReplaceChar "/a b" ' ' '_' ++ "/" ++ "sst" ∧
    _Name spacedGroupVar = "/a_b/" ++ "sst" :=
  ⟨C3_name_rule.1 rootVar rfl,
   C3_name_rule.2.1 spacedGroupVar (by decide),
   C3_name_rule.2.2 spacedGroupVar rfl⟩

/-- A string-typed (element code S1) variable with no flag attribute. -/
def stringVar : NcVar :=
  { name := "quality_comment", group := rootGroup, groupParent := none,
    attrs := [("units", .str "1")], datatype := .plain "S1" }

/-- A variable carrying a flag attribute. -/
def flaggedVar : NcVar :=
  { name := "quality_flag", group := rootGroup, groupParent := none,
    attrs := [("flag_values", .arr [.num 0, .num 1])], datatype := .plain "i1" }

/-- C4 counterexample: a variable whose DataType resolves to "string"
and which has no flag attribute gets an absent VariableSubType, not
OTHER — the rule compares against "char", which the table never
produces. -/
theorem C4_subtype_cex :
    _DataType stringVar.datatype = .ok (some "string") ∧
    hasFlagAttr stringVar = false ∧
    _VariableSubType stringVar = .ok .pnone :=
  ⟨rfl, rfl, rfl⟩

/-- C4 (amended): with a flag-prefixed attribute the rule returns
SCIENCE_EVENTFLAG; without one, the rule compares the DataType result
to "char", a value `__datatypes__` can never produce, so whenever
`_DataType` succeeds the field is absent (and its exception propagates
otherwise) — in particular string-typed flagless variables yield
absent, not OTHER. -/
theorem C4_subtype_rule (v : NcVar) :
    (hasFlagAttr v = true →
      _VariableSubType v = .ok (.str "SCIENCE_EVENTFLAG")) ∧
    (hasFlagAttr v = false →
      _VariableSubType v = (_DataType v.datatype).map (fun _ => .pnone)) := by
  constructor
  · intro h; simp [_VariableSubType, h]
  · intro h
    simp only [_VariableSubType, h, Bool.false_eq_true, if_false]
    cases hd : _DataType v.datatype with
    | error e => rfl
    | ok dt =>
      have := datatype_never_char hd
      simp [this, Except.map]

/-- C4 witness: at a flagged variable and at the string-typed flagless
variable. -/
theorem C4_subtype_rule_witness :
    _VariableSubType flaggedVar = .ok (.str "SCIENCE_EVENTFLAG") ∧
    _VariableSubType stringVar = (_DataType stringVar.datatype).map (fun _ => .pnone) :=
  ⟨(C4_subtype_rule flaggedVar).1 rfl, (C4_subtype_rule stringVar).2 rfl⟩

/-- A one-entry CF standard-name catalog whose entry carries a
description child. -/
def cfCatalog : List XmlEntry :=
  [{ id := "sea_surface_temperature",
     children := [("description", some "Temperature of sea water at the surface")] }]

/-- A variable with a `standard_name` naming that catalog entry. -/
def sstStdName : NcVar :=
  { name := "sst", group := rootGroup, groupParent := none,
    attrs := [("standard_name", .str "sea_surface_temperature")],
    datatype := .plain "f4" }

/-- C5: the catalog does give the term a non-null description
(`read_cfnames_spec` finds it), but `_read_cfnames` maps the term to an
empty dict — the child loop assigns tags at the top level of the table
instead of into the entry's dict — so the description lookup in
`_AdditionalIdentifiers` raises KeyError, is caught, appends nothing,
and the rule returns absent. -/
theorem C5_description_never_appended :
    read_cfnames_spec cfCatalog "sea_surface_temperature" =
      some "Temperature of sea water at the surface" ∧
    _read_cfnames cfCatalog =
      [("sea_surface_temperature", .dictv []),
       ("description", .strv "Temperature of sea water at the surface")] ∧
    _AdditionalIdentifiers (_read_cfnames cfCatalog) sstStdName = .ok .pnone :=
  ⟨rfl, rfl, rfl⟩

/-- A variable with no attributes at all. -/
def bareVar : NcVar :=
  { name := "sst", group := rootGroup, groupParent := none,
    attrs := [], datatype := .plain "f4" }

/-- C6 counterexample: for a variable without `add_offset` the Offset
rule returns the default 0.0, but `Record.fill` treats the falsy 0.0
as empty, so the produced record does not contain an Offset field —
refuting the claim that every record contains one. -/
theorem C6_offset_cex :
    _Offset bareVar = .num 0 ∧
    (Record.fill [] (some _Offset) bareVar "Offset").lookup "Offset" = none :=
  ⟨rfl, rfl⟩

/-- C6 (amended): for every variable without `add_offset` the Offset
rule returns the default 0.0, but the record-filling step treats any
falsy value — including 0.0 — as empty, so the produced record omits
the Offset property; records therefore need not contain an Offset
field. -/
theorem C6_offset_default_omitted (v : NcVar) (meta : List (String × PyVal))
    (h : v.attrs.lookup "add_offset" = none) :
    _Offset v = .num 0 ∧ Record.fill meta (some _Offset) v "Offset" = meta := by
  have h0 : _Offset v = .num 0 := by simp [_Offset, h]
  refine ⟨h0, ?_⟩
  simp [Record.fill, h0, truthy]

/-- C6 witness: the attribute-free variable with an empty record. -/
theorem C6_offset_default_omitted_witness :
    _Offset bareVar = .num 0 ∧ Record.fill [] (some _Offset) bareVar "Offset" = [] :=
  C6_offset_default_omitted bareVar [] rfl

/-- C7: when `coverage_content_type` is absent the VariableType rule is
soft-absent (returns None); when it is present but its trimmed value is
not a key of the closed content-type enumeration, the KeyError
propagates as a hard error — it is not swallowed and does not yield an
absent field. -/
theorem C7_variabletype_hard_error (v : NcVar) :
    (v.attrs.lookup "coverage_content_type" = none →
      _VariableType v = .ok .pnone) ∧
    (∀ value, v.attrs.lookup "coverage_content_type" = some value →
      coverage_content_types.lookup (pyStrip (pyStr value)) = none →
      _VariableType v = .error ()) := by
  constructor
  · intro h; simp [_VariableType, h]
  · intro value h1 h2; simp [_VariableType, h1, h2]

/-- A variable whose `coverage_content_type` has an unrecognized value
(with surrounding whitespace to exercise the strip). -/
def bogusTypeVar : NcVar :=
  { name := "q", group := rootGroup, groupParent := none,
    attrs := [("coverage_content_type", .str " bogusType ")],
    datatype := .plain "f4" }

/-- C7 witness: absent attribute gives None, unrecognized value raises. -/
theorem C7_variabletype_hard_error_witness :
    _VariableType bareVar = .ok .pnone ∧ _VariableType bogusTypeVar = .error () :=
  ⟨(C7_variabletype_hard_error bareVar).1 rfl,
   (C7_variabletype_hard_error bogusTypeVar).2 (.str " bogusType ") rfl rfl⟩

mutual
/-- Threading an accumulator through the walker only prepends it. -/
theorem ncgrp_acc (g : NcGroup) (acc : List String) :
    _ncgrp g acc = acc ++ _ncgrp g [] := by
  cases g with
  | mk vars groups =>
    simp only [_ncgrp]
    rw [ncgrpList_acc groups acc, ncgrpList_acc groups []]
    simp [List.append_assoc]

/-- Accumulator lemma for the child-group loop. -/
theorem ncgrpList_acc (gs : List NcGroup) (acc : List String) :
    _ncgrpList gs acc = acc ++ _ncgrpList gs [] := by
  cases gs with
  | nil => simp [_ncgrpList]
  | cons g gs' =>
    simp only [_ncgrpList]
    rw [ncgrp_acc g acc, ncgrpList_acc gs' (acc ++ _ncgrp g []),
        ncgrpList_acc gs' (_ncgrp g [])]
    simp [List.append_assoc]
end

/-- C8: the hierarchy walk emits each group's child groups in full, in
presented order, before the group's own variables: the walk of a group
is the concatenation of its children's walks followed by its own
variables; on a root group holding variable A with one child group
holding variable B, the output sequence is exactly [B, A]. -/
theorem C8_children_before_own :
    (∀ (vs : List String) (groups : List NcGroup),
      _ncgrp (.mk vs groups) [] = _ncgrpList groups [] ++ vs) ∧
    (∀ (g : NcGroup) (gs : List NcGroup),
      _ncgrpList (g :: gs) [] = _ncgrp g [] ++ _ncgrpList gs []) ∧
    _ncgrp (.mk ["A"] [.mk ["B"] []]) [] = ["B", "A"] := by
  refine ⟨fun vs groups => by simp [_ncgrp], fun g gs => ?_, ?_⟩
  · simp only [_ncgrpList]
    exact ncgrpList_acc gs (_ncgrp g [])
  · simp [_ncgrp, _ncgrpList]

/-- A successful unsigned parse is non-negative. -/
theorem parseUnsignedFloat_nonneg (cs : List Char) (q : ℚ)
    (h : parseUnsignedFloat cs = some q) : 0 ≤ q := by
  simp only [parseUnsignedFloat] at h
  split at h
  · split at h
    · injection h with h; subst h; positivity
    · exact absurd h (by simp)
  · split at h
    · exact absurd h (by simp)
    · split at h
      · exact absurd h (by simp)
      · split at h
        · injection h with h; subst h; positivity
        · exact absurd h (by simp)

/-- A parse of a string with no minus sign is non-negative. -/
theorem pyFloat_nonneg_of_no_minus (s : String) (hneg : '-' ∉ s.data) (q : ℚ)
    (h : pyFloat s = some q) : 0 ≤ q := by
  simp only [pyFloat] at h
  cases hd : s.data with
  | nil => rw [hd] at h; cases h
  | cons c rest =>
    rw [hd] at h
    have hc : c ≠ '-' := by
      rintro rfl
      exact hneg (by rw [hd]; exact List.mem_cons_self _ _)
    have h' : (if c = '-' then Option.map (fun q => -q) (parseUnsignedFloat rest)
        else parseUnsignedFloat (c :: rest)) = some q := h
    rw [if_neg hc] at h'
    exact parseUnsignedFloat_nonneg _ _ h'

/-- A variable whose group sits under the root group; the parent
(grandparent of the variable) carries the textual geospatial bounds. -/
def boundedVar : NcVar :=
  { name := "sst", group := { path := "/g", attrs := [] },
    groupParent := some { path := "/", attrs :=
      [("geospatial_lat_min", .num (-33)),
       ("geospatial_lat_max", .str "34.5N"),
       ("geospatial_lon_min", .str "120.0W"),
       ("geospatial_lon_max", .str "125.0E")] },
    attrs := [], datatype := .plain "f4" }

/-- C9: bound parsing strips every character other than digits, dot and
minus before float conversion, and infers no sign from cardinal
direction letters: a sanitized minus-free bound is non-negative,
"34.5N" parses to 34.5, "120.0W" parses to +120 (not -120), and a
variable whose ancestor group carries these textual bounds produces
exactly those values in its IndexRanges. -/
theorem C9_bound_parsing :
    (∀ s : String, (_num_sanitize_sub s).data = s.data.filter allowedNumChar) ∧
    (∀ s : String, '-' ∉ s.data → ∀ q : ℚ,
      _sanitize_bound (.str s) = .ok (.num q) → 0 ≤ q) ∧
    _sanitize_bound (.str "34.5N") = .ok (.num (69 / 2)) ∧
    _sanitize_bound (.str "120.0W") = .ok (.num 120) ∧
    _IndexRanges boundedVar = .ok (.dict
      [("LatRange", .arr [.num (-33), .num (69 / 2)]),
       ("LonRange", .arr [.num 120, .num 125])]) := by
  refine ⟨fun s => rfl, ?_, ?_, ?_, ?_⟩
  · intro s hneg q h
    simp only [_sanitize_bound] at h
    cases hp : pyFloat (_num_sanitize_sub s) with
    | none => rw [hp] at h; cases h
    | some q' =>
      rw [hp] at h
      have hq : q' = q := by
        injection h with h; injection h with h
      subst hq
      refine pyFloat_nonneg_of_no_minus _ ?_ _ hp
      intro hm
      have : '-' ∈ s.data.filter allowedNumChar := by
        simpa [_num_sanitize_sub] using hm
      exact hneg (List.mem_of_mem_filter this)
  · calc _sanitize_bound (.str "34.5N")
        = .ok (.num ((34 : ℚ) + 5 / 10 ^ 1)) := rfl
      _ = .ok (.num (69 / 2)) := by norm_num
  · calc _sanitize_bound (.str "120.0W")
        = .ok (.num ((120 : ℚ) + 0 / 10 ^ 1)) := rfl
      _ = .ok (.num 120) := by norm_num
  · calc _IndexRanges boundedVar
        = .ok (.dict
          [("LatRange", .arr [.num (-33), .num ((34 : ℚ) + 5 / 10 ^ 1)]),
           ("LonRange", .arr [.num ((120 : ℚ) + 0 / 10 ^ 1),
                              .num ((125 : ℚ) + 0 / 10 ^ 1)])]) := rfl
      _ = .ok (.dict
          [("LatRange", .arr [.num (-33), .num (69 / 2)]),
           ("LonRange", .arr [.num 120, .num 125])]) := by norm_num

/-- C9 witness: sanitation at "120.0W" and the non-negative parse of a
west-hemisphere bound. -/
theorem C9_bound_parsing_witness :
    (_num_sanitize_sub "120.0W").data = "120.0W".data.filter allowedNumChar ∧
    (0 : ℚ) ≤ 120 :=
  ⟨C9_bound_parsing.1 "120.0W",
   C9_bound_parsing.2.1 "120.0W" (by decide) 120 C9_bound_parsing.2.2.2.1⟩

/-- C10: when `scale_factor` is present with numeric value 0 the Scale
rule returns that zero, but `Record.fill` treats any falsy result as
empty, so the produced record omits the Scale property even though the
attribute is present on the variable. -/
theorem C10_scale_zero_omitted (v : NcVar) (meta : List (String × PyVal))
    (h : v.attrs.lookup "scale_factor" = some (.num 0)) :
    _Scale v = .num 0 ∧ Record.fill meta (some _Scale) v "Scale" = meta := by
  have h0 : _Scale v = .num 0 := by simp [_Scale, h]
  exact ⟨h0, by simp [Record.fill, h0, truthy]⟩

/-- A variable carrying `scale_factor = 0`. -/
def zeroScaleVar : NcVar :=
  { name := "sst", group := rootGroup, groupParent := none,
    attrs := [("scale_factor", .num 0)], datatype := .plain "f4" }

/-- C10 witness: the zero-scale variable with an empty record. -/
theorem C10_scale_zero_omitted_witness :
    _Scale zeroScaleVar = .num 0 ∧
    Record.fill [] (some _Scale) zeroScaleVar "Scale" = [] :=
  C10_scale_zero_omitted zeroScaleVar [] rfl

end UmmVarGen
